import Mathlib

/-!
Verification development for the asynchronous TLS client socket
(`src/c_src/src/tlsSocket.cpp`, namespace `one::etls`).

The C++ file is embedded shallowly:

* `TLSSocket.notifying` models the `try { (this->*method)(args...); success(); }
  catch (const std::exception &e) { error(e.what()); }` wrapper.  A fault is
  either a `std::exception`-derived exception carrying a message (`Fault.stdExc`)
  or any other thrown object (`Fault.other`); the observable behaviour of the
  wrapper is the list of callback invocations plus the fault, if any, escaping it.
* `TLSSocket.shuffleEndpoints` models collecting the resolver iterator into a
  vector and `std::shuffle`-ing it, with the thread-local random engine
  abstracted as an oracle `rand : Nat → Nat` supplying the draw used at each
  index (`std::shuffle` swaps position `i` with a uniform draw in `[0, i]`,
  for `i` from `n-1` down to `1`).
* `TLSSocket.connect` / `TLSSocket.send` are written over `ConnM`, an
  exception-plus-trace model of a `boost::asio::yield_context` body: each
  suspendable operation records a `Step` and either returns a value or throws
  (`Except.error`), aborting the rest of the body.  The outcomes of the
  external asio operations (`async_resolve`, per-endpoint connect attempts,
  `async_handshake`, `async_write`) are supplied by environment records.
* `asyncConnect` models `boost::asio::async_connect` over an iterator range:
  an empty range fails with `boost::asio::error::not_found`
  ("Element not found"); otherwise the endpoints are tried in order until one
  succeeds, reporting the error of the last attempt if all fail.
* `TLSSocket.close` models `m_socket.lowest_layer().close()` on the socket
  state: it closes the raw transport channel and touches nothing else; closing
  an already-closed channel is a documented no-op.
-/

set_option autoImplicit false

/-- A C++ fault: either an exception derived from `std::exception`, exposing a
message through `what()`, or any other thrown object. -/
inductive Fault where
  | stdExc (msg : String)
  | other
deriving DecidableEq, Repr

/-- The behaviour of running a piece of code returning `void`: it either
completes normally or raises a fault. -/
inductive Outcome where
  | ok
  | fault (f : Fault)
deriving DecidableEq, Repr

/-- One observable callback invocation: the success callback (no arguments) or
the error callback with its message argument. -/
inductive Call where
  | success
  | error (msg : String)
deriving DecidableEq, Repr

/-- Model of `TLSSocket::notifying` (tlsSocket.cpp lines 21–32): run the method
(first argument: its outcome); if it completes, invoke `success()` (second
argument: the outcome of the caller-supplied success callback itself); any
`std::exception` raised by either is caught and turned into `error(e.what())`.
Returns the list of callback invocations, in order, and the fault escaping the
wrapper, if any. -/
def TLSSocket.notifying (op : Outcome) (succ : Outcome) : List Call × Option Fault :=
  match op with
  | Outcome.fault (Fault.stdExc m) => ([Call.error m], none)
  | Outcome.fault Fault.other => ([], some Fault.other)
  | Outcome.ok =>
    match succ with
    | Outcome.ok => ([Call.success], none)
    | Outcome.fault (Fault.stdExc m) => ([Call.success, Call.error m], none)
    | Outcome.fault Fault.other => ([Call.success], some Fault.other)

/-- Exactly one of the two supplied callbacks was invoked, exactly once. -/
def oneCallbackFired (calls : List Call) : Prop :=
  calls = [Call.success] ∨ ∃ m, calls = [Call.error m]

/-- A resolved endpoint entry
(`boost::asio::ip::basic_resolver_entry<tcp>`), abstract in this file. -/
structure Endpoint where
  id : Nat
deriving DecidableEq, Repr

/-- Swap the entries at positions `i` and `j` of a list; out-of-range indices
leave the list unchanged.  This is the effect of one `std::swap` performed by
`std::shuffle`. -/
def listSwap {α : Type} (l : List α) (i j : Nat) : List α :=
  match l[i]?, l[j]? with
  | some x, some y => (l.set i y).set j x
  | _, _ => l

/-- The loop of `std::shuffle`: for `i` from `n-1` down to `1`, swap position
`i` with a position drawn uniformly from `[0, i]`; `rand i` is the engine
draw used at index `i`, reduced modulo `i + 1`. -/
def shuffleGo {α : Type} (rand : Nat → Nat) : Nat → List α → List α
  | 0, l => l
  | i + 1, l => shuffleGo rand i (listSwap l (i + 1) (rand (i + 1) % (i + 2)))

/-- Model of `TLSSocket::shuffleEndpoints` (tlsSocket.cpp lines 97–108):
collect the resolver results into a vector and `std::shuffle` it with the
thread-local random engine, abstracted as the draw oracle `rand`. -/
def TLSSocket.shuffleEndpoints {α : Type} (entries : List α) (rand : Nat → Nat) : List α :=
  shuffleGo rand (entries.length - 1) entries

/-- One suspendable step of an operation body, as recorded in a trace. -/
inductive Step where
  | resolve
  | shuffle
  | tryConnect (endpoints : List Endpoint)
  | handshake
  | write (buffer : List Nat)
deriving DecidableEq, Repr

/-- A coroutine body run on a `yield_context`: given the trace of steps
performed so far, it performs further steps (appending them to the trace) and
either returns a value or throws. -/
def ConnM (α : Type) : Type := List Step → Except String α × List Step

/-- One suspendable operation: record its step and return its outcome;
a `boost::system::system_error` outcome is thrown into the body. -/
def suspend {α : Type} (s : Step) (r : Except String α) : ConnM α :=
  fun t => (r, t ++ [s])

/-- Sequencing of two statements in a coroutine body: a thrown exception in
the first aborts the second. -/
def stepBind {α β : Type} (x : ConnM α) (f : α → ConnM β) : ConnM β :=
  fun t =>
    match x t with
    | (Except.ok a, t₂) => f a t₂
    | (Except.error e, t₂) => (Except.error e, t₂)

/-- Model of `boost::asio::async_connect(socket, begin, end, yield)`:
an empty range fails with `boost::asio::error::not_found` ("Element not
found"); otherwise the endpoints are tried in order (`attempt e = none` means
endpoint `e` accepts, `attempt e = some msg` means the attempt fails with
message `msg`) until one succeeds, the last failure being reported if all
fail. -/
def asyncConnect (attempt : Endpoint → Option String) :
    List Endpoint → Except String Endpoint
  | [] => Except.error "Element not found"
  | e :: rest =>
    match attempt e, rest with
    | none, _ => Except.ok e
    | some msg, [] => Except.error msg
    | some _, r :: rs => asyncConnect attempt (r :: rs)

/-- Outcomes of the external asio operations encountered by one
`TLSSocket::connect` body. -/
structure ConnectEnv where
  resolveResult : Except String (List Endpoint)
  rand : Nat → Nat
  attempt : Endpoint → Option String
  handshakeResult : Except String Unit

/-- Model of `TLSSocket::connect` (tlsSocket.cpp lines 76–88): resolve the
host and port, shuffle the resolved endpoints, try the raw transport
connection against them, then perform the TLS client handshake; each step
suspends, and a failure at any step throws, aborting the rest. -/
def TLSSocket.connect (env : ConnectEnv) : ConnM Unit :=
  stepBind (suspend Step.resolve env.resolveResult) fun entries =>
  stepBind (suspend Step.shuffle
      (Except.ok (TLSSocket.shuffleEndpoints entries env.rand))) fun endpoints =>
  stepBind (suspend (Step.tryConnect endpoints)
      (asyncConnect env.attempt endpoints)) fun _ =>
  suspend Step.handshake env.handshakeResult

/-- Run one `connect` body from the empty trace. -/
def connectRun (env : ConnectEnv) : Except String Unit × List Step :=
  TLSSocket.connect env []

/-- Outcome of the external `async_write` for a given buffer: the number of
bytes transferred, or an error. -/
structure SendEnv where
  writeResult : List Nat → Except String Nat

/-- Model of `TLSSocket::send` (tlsSocket.cpp lines 90–95): one
`boost::asio::async_write` of the whole buffer; a failure throws. -/
def TLSSocket.send (env : SendEnv) (buffer : List Nat) : ConnM Unit :=
  stepBind (suspend (Step.write buffer) (env.writeResult buffer)) fun _ =>
  fun t => (Except.ok (), t)

/-- Run one `send` body from the empty trace. -/
def sendRun (env : SendEnv) (buffer : List Nat) : Except String Unit × List Step :=
  TLSSocket.send env buffer []

/-- The outcome, as seen by `notifying`, of the result of a coroutine body: asio
operations signal failure by throwing `boost::system::system_error`, which
derives from `std::exception` and carries a message. -/
def outcomeOf : Except String Unit → Outcome
  | Except.ok _ => Outcome.ok
  | Except.error m => Outcome.fault (Fault.stdExc m)

/-- The callback invocations of one accepted `connectAsync` call
(tlsSocket.cpp lines 42–55): the spawned body runs `notifying` with
`&TLSSocket::connect` as the method; `succ` is the behaviour of the
caller-supplied success callback. -/
def connectAsyncCallbacks (env : ConnectEnv) (succ : Outcome) : List Call × Option Fault :=
  TLSSocket.notifying (outcomeOf (connectRun env).1) succ

/-- The callback invocations of one accepted `sendAsync` call
(tlsSocket.cpp lines 57–69): the spawned body runs `notifying` with
`&TLSSocket::send` as the method. -/
def sendAsyncCallbacks (env : SendEnv) (buffer : List Nat) (succ : Outcome) :
    List Call × Option Fault :=
  TLSSocket.notifying (outcomeOf (sendRun env buffer).1) succ

/-- The raw transport channel underlying the stream
(`m_socket.lowest_layer()`, a `tcp::socket`). -/
structure LowestLayer where
  isOpen : Bool
deriving DecidableEq, Repr

/-- The `ssl::stream` member `m_socket`: a TLS layer wrapping the raw
channel.  The state of the TLS layer is abstract in this file. -/
structure SSLStream where
  tlsLayerState : Nat
  lowestLayer : LowestLayer
deriving DecidableEq, Repr

/-- The state of a `TLSSocket` instance: its members `m_context` (TLS
context), `m_strand` (serialization domain), `m_resolver` and `m_socket`.
The components other than the raw channel are untouched by `close`. -/
structure TLSSocket where
  m_context : Nat
  m_strand : Nat
  m_resolver : Nat
  m_socket : SSLStream
deriving DecidableEq, Repr

/-- Model of `TLSSocket::close` (tlsSocket.cpp lines 71–74):
`m_socket.lowest_layer().close()` closes the raw transport channel;
closing a channel that is not open is a no-op, and no fault is raised. -/
def TLSSocket.close (s : TLSSocket) : TLSSocket × Option Fault :=
  ({ s with m_socket := { s.m_socket with lowestLayer := { isOpen := false } } }, none)

/-- A first concrete endpoint, for witnesses. -/
def ep1 : Endpoint := { id := 1 }

/-- A second concrete endpoint, for witnesses. -/
def ep2 : Endpoint := { id := 2 }

/-- A connect environment in which every step succeeds: the host resolves to
`[ep1, ep2]`, every endpoint accepts, and the handshake completes. -/
def envAllOk : ConnectEnv :=
  { resolveResult := Except.ok [ep1, ep2]
    rand := fun _ => 0
    attempt := fun _ => none
    handshakeResult := Except.ok () }

/-- A connect environment in which resolution completes but yields zero
endpoint candidates. -/
def envEmptyResolve : ConnectEnv :=
  { resolveResult := Except.ok []
    rand := fun _ => 0
    attempt := fun _ => none
    handshakeResult := Except.ok () }

/-- A send environment in which the write flushes the whole buffer. -/
def envSendOk : SendEnv :=
  { writeResult := fun b => Except.ok b.length }

lemma cons_perm_get_cons_set {α : Type} (l : List α) (j : Nat) (hj : j < l.length) (a : α) :
    List.Perm (a :: l) (l[j] :: l.set j a) := by
  induction l generalizing j a with
  | nil => exact absurd hj (Nat.not_lt_zero j)
  | cons x t ih =>
    cases j with
    | zero => exact List.Perm.swap x a t
    | succ k =>
      have hk : k < t.length := Nat.lt_of_succ_lt_succ hj
      exact ((List.Perm.swap x a t).trans ((ih k hk a).cons x)).trans
        (List.Perm.swap (t[k]) x (t.set k a))

lemma set_set_get_perm {α : Type} (l : List α) (i j : Nat) (hi : i < l.length)
    (hj : j < l.length) :
    List.Perm ((l.set i (l[j])).set j (l[i])) l := by
  induction l generalizing i j with
  | nil => exact absurd hi (Nat.not_lt_zero i)
  | cons a t ih =>
    cases i with
    | zero =>
      cases j with
      | zero => exact List.Perm.refl (a :: t)
      | succ k =>
        have hk : k < t.length := Nat.lt_of_succ_lt_succ hj
        exact (cons_perm_get_cons_set t k hk a).symm
    | succ m =>
      have hm : m < t.length := Nat.lt_of_succ_lt_succ hi
      cases j with
      | zero => exact (cons_perm_get_cons_set t m hm a).symm
      | succ k =>
        have hk : k < t.length := Nat.lt_of_succ_lt_succ hj
        exact (ih m k hm hk).cons a

lemma listSwap_perm {α : Type} (l : List α) (i j : Nat) : List.Perm (listSwap l i j) l := by
  unfold listSwap
  split
  · next x y hx hy =>
    obtain ⟨hi, hxv⟩ := List.getElem?_eq_some.mp hx
    obtain ⟨hj, hyv⟩ := List.getElem?_eq_some.mp hy
    rw [← hxv, ← hyv]
    exact set_set_get_perm l i j hi hj
  · exact List.Perm.refl l

lemma shuffleGo_perm {α : Type} (rand : Nat → Nat) (n : Nat) (l : List α) :
    List.Perm (shuffleGo rand n l) l := by
  induction n generalizing l with
  | zero => exact List.Perm.refl l
  | succ i ih =>
    exact (ih (listSwap l (i + 1) (rand (i + 1) % (i + 2)))).trans
      (listSwap_perm l (i + 1) (rand (i + 1) % (i + 2)))

/-- Claim C3: `shuffleEndpoints` returns a permutation of the resolved list —
same length, same multiset (the multiplicity of every entry preserved) — and for
lists of zero or one entries it returns the list unchanged, raising no fault. -/
theorem shuffleEndpoints_perm {α : Type} [DecidableEq α] (l : List α) (rand : Nat → Nat) :
    List.Perm (TLSSocket.shuffleEndpoints l rand) l ∧
    (TLSSocket.shuffleEndpoints l rand).length = l.length ∧
    (∀ a : α, (TLSSocket.shuffleEndpoints l rand).count a = l.count a) ∧
    (l.length ≤ 1 → TLSSocket.shuffleEndpoints l rand = l) := by
  have hperm : List.Perm (TLSSocket.shuffleEndpoints l rand) l :=
    shuffleGo_perm rand (l.length - 1) l
  refine ⟨hperm, hperm.length_eq, fun a => hperm.count_eq a, fun h => ?_⟩
  have h0 : l.length - 1 = 0 := Nat.sub_eq_zero_of_le h
  show shuffleGo rand (l.length - 1) l = l
  rw [h0]
  exact rfl

/-- Witness for C3 at the concrete lists `[1, 2, 3]` and `[5]`. -/
theorem shuffleEndpoints_perm_witness :
    (List.Perm (TLSSocket.shuffleEndpoints [1, 2, 3] (fun i => i * 7 + 3)) [1, 2, 3] ∧
      (TLSSocket.shuffleEndpoints [1, 2, 3] (fun i => i * 7 + 3)).length = 3 ∧
      (∀ a : Nat, (TLSSocket.shuffleEndpoints [1, 2, 3] (fun i => i * 7 + 3)).count a
        = List.count a [1, 2, 3]) ∧
      (List.length [1, 2, 3] ≤ 1 →
        TLSSocket.shuffleEndpoints [1, 2, 3] (fun i => i * 7 + 3) = [1, 2, 3])) ∧
    TLSSocket.shuffleEndpoints [5] (fun _ => 0) = [5] :=
  ⟨shuffleEndpoints_perm [1, 2, 3] (fun i => i * 7 + 3),
   (shuffleEndpoints_perm [5] (fun _ => 0)).2.2.2 (by decide)⟩

/-- Claim C2: in `notifying`, an operation that completes without a fault has
the success continuation invoked (with no arguments), and an operation that
raises a `std::exception`-derived fault carrying message `m` has the error
continuation invoked with `m`, the fault not propagating out of the wrapper. -/
theorem notifying_contract (op succ : Outcome) (m : String) :
    (op = Outcome.ok → Call.success ∈ (TLSSocket.notifying op succ).1) ∧
    (op = Outcome.fault (Fault.stdExc m) →
      TLSSocket.notifying op succ = ([Call.error m], none)) := by
  constructor
  · rintro rfl
    cases succ with
    | ok => simp [TLSSocket.notifying]
    | fault f => cases f <;> simp [TLSSocket.notifying]
  · rintro rfl
    rfl

/-- Witness for C2: a successful operation with a benign callback, and an
operation failing with message "resolution failed". -/
theorem notifying_contract_witness :
    Call.success ∈ (TLSSocket.notifying Outcome.ok Outcome.ok).1 ∧
    TLSSocket.notifying (Outcome.fault (Fault.stdExc "resolution failed")) Outcome.ok
      = ([Call.error "resolution failed"], none) :=
  ⟨(notifying_contract Outcome.ok Outcome.ok "resolution failed").1 rfl,
   (notifying_contract (Outcome.fault (Fault.stdExc "resolution failed")) Outcome.ok
      "resolution failed").2 rfl⟩

/-- Counterexample to claim C1 as stated: on an accepted `connectAsync` call
whose internal operation succeeds but whose caller-supplied success callback
throws a `std::exception`, both callbacks fire — `success()` is invoked, its
exception is caught by the same handler, and `error` is invoked too. -/
theorem connectAsync_both_callbacks_cex :
    ¬ oneCallbackFired
      (connectAsyncCallbacks envAllOk (Outcome.fault (Fault.stdExc "callback failure"))).1 := by
  intro h
  have hc : (connectAsyncCallbacks envAllOk (Outcome.fault (Fault.stdExc "callback failure"))).1
      = [Call.success, Call.error "callback failure"] := rfl
  rw [hc] at h
  rcases h with h | ⟨m, h⟩ <;> simp at h

lemma outcomeOf_ne_other (r : Except String Unit) :
    outcomeOf r ≠ Outcome.fault Fault.other := by
  cases r <;> simp [outcomeOf]

lemma oneCallbackFired_notifying (op : Outcome) (h : op ≠ Outcome.fault Fault.other) :
    oneCallbackFired (TLSSocket.notifying op Outcome.ok).1 := by
  cases op with
  | ok => exact Or.inl rfl
  | fault f =>
    cases f with
    | stdExc m => exact Or.inr ⟨m, rfl⟩
    | other => exact absurd rfl h

/-- Claim C1, amended: for every accepted `connectAsync` or `sendAsync` call
whose supplied success callback does not itself raise a fault, exactly one of
the two callbacks is invoked, exactly once — never both, never zero times. -/
theorem async_call_one_callback (cenv : ConnectEnv) (senv : SendEnv) (b : List Nat)
    (succ : Outcome) (h : succ = Outcome.ok) :
    oneCallbackFired (connectAsyncCallbacks cenv succ).1 ∧
    oneCallbackFired (sendAsyncCallbacks senv b succ).1 := by
  subst h
  exact ⟨oneCallbackFired_notifying _ (outcomeOf_ne_other _),
    oneCallbackFired_notifying _ (outcomeOf_ne_other _)⟩

/-- Witness for the amended C1 at concrete environments. -/
theorem async_call_one_callback_witness :
    oneCallbackFired (connectAsyncCallbacks envAllOk Outcome.ok).1 ∧
    oneCallbackFired (sendAsyncCallbacks envSendOk [1, 2, 3] Outcome.ok).1 :=
  async_call_one_callback envAllOk envSendOk [1, 2, 3] Outcome.ok rfl

/-- Claim C10: if the internal operation completes but the success callback
raises a `std::exception`-derived fault with message `m`, the error callback is
also invoked with `m` (both callbacks fire); a fault not derived from
`std::exception` — whether raised by the operation or by the success callback —
escapes the wrapper uncaught. -/
theorem notifying_success_callback_fault (m : String) (succ : Outcome) :
    TLSSocket.notifying Outcome.ok (Outcome.fault (Fault.stdExc m))
      = ([Call.success, Call.error m], none) ∧
    (TLSSocket.notifying (Outcome.fault Fault.other) succ).1 = [] ∧
    (TLSSocket.notifying (Outcome.fault Fault.other) succ).2 = some Fault.other ∧
    (TLSSocket.notifying Outcome.ok (Outcome.fault Fault.other)).2 = some Fault.other :=
  ⟨rfl, rfl, rfl, rfl⟩

lemma connectRun_resolve_error (env : ConnectEnv) (msg : String)
    (h : env.resolveResult = Except.error msg) :
    connectRun env = (Except.error msg, [Step.resolve]) := by
  simp [connectRun, TLSSocket.connect, stepBind, suspend, h]

lemma connectRun_connect_error (env : ConnectEnv) (entries : List Endpoint) (msg : String)
    (h1 : env.resolveResult = Except.ok entries)
    (h2 : asyncConnect env.attempt (TLSSocket.shuffleEndpoints entries env.rand)
      = Except.error msg) :
    connectRun env = (Except.error msg,
      [Step.resolve, Step.shuffle,
       Step.tryConnect (TLSSocket.shuffleEndpoints entries env.rand)]) := by
  simp [connectRun, TLSSocket.connect, stepBind, suspend, h1, h2]

lemma connectRun_connect_ok (env : ConnectEnv) (entries : List Endpoint) (e : Endpoint)
    (h1 : env.resolveResult = Except.ok entries)
    (h2 : asyncConnect env.attempt (TLSSocket.shuffleEndpoints entries env.rand)
      = Except.ok e) :
    connectRun env = (env.handshakeResult,
      [Step.resolve, Step.shuffle,
       Step.tryConnect (TLSSocket.shuffleEndpoints entries env.rand),
       Step.handshake]) := by
  simp [connectRun, TLSSocket.connect, stepBind, suspend, h1, h2]

lemma asyncConnect_ok_first (attempt : Endpoint → Option String) (l : List Endpoint)
    (e : Endpoint) (h : asyncConnect attempt l = Except.ok e) :
    ∃ pre post, l = pre ++ e :: post ∧ (∀ x ∈ pre, attempt x ≠ none) ∧ attempt e = none := by
  induction l with
  | nil => simp [asyncConnect] at h
  | cons a rest ih =>
    cases ha : attempt a with
    | none =>
      have hae : a = e := by simpa [asyncConnect, ha] using h
      subst hae
      exact ⟨[], rest, rfl, by simp, ha⟩
    | some msg =>
      cases rest with
      | nil => simp [asyncConnect, ha] at h
      | cons r rs =>
        have h' : asyncConnect attempt (r :: rs) = Except.ok e := by
          simpa [asyncConnect, ha] using h
        obtain ⟨pre, post, hl, hpre, he⟩ := ih h'
        refine ⟨a :: pre, post, by rw [List.cons_append, ← hl], ?_, he⟩
        intro x hx
        rcases List.mem_cons.mp hx with rfl | hx'
        · simp [ha]
        · exact hpre x hx'

lemma asyncConnect_error_all (attempt : Endpoint → Option String) (l : List Endpoint)
    (msg : String) (h : asyncConnect attempt l = Except.error msg) :
    ∀ x ∈ l, attempt x ≠ none := by
  induction l with
  | nil => simp
  | cons a rest ih =>
    cases ha : attempt a with
    | none => simp [asyncConnect, ha] at h
    | some m2 =>
      cases rest with
      | nil =>
        intro x hx
        have hxa : x = a := List.mem_singleton.mp hx
        subst hxa
        simp [ha]
      | cons r rs =>
        have h' : asyncConnect attempt (r :: rs) = Except.error msg := by
          simpa [asyncConnect, ha] using h
        intro x hx
        rcases List.mem_cons.mp hx with rfl | hx'
        · simp [ha]
        · exact ih h' x hx'

/-- Claim C4: a `connect` body performs, in order: resolution, shuffling of the
resolved candidates, raw-transport connection attempts against the shuffled
list in order until one succeeds or all fail, then the TLS client handshake;
a failure at any step aborts the remaining steps. -/
theorem connect_sequence (env : ConnectEnv) :
    (∀ msg, env.resolveResult = Except.error msg →
      connectRun env = (Except.error msg, [Step.resolve])) ∧
    (∀ entries, env.resolveResult = Except.ok entries →
      (∀ msg,
        asyncConnect env.attempt (TLSSocket.shuffleEndpoints entries env.rand)
            = Except.error msg →
        (∀ x ∈ TLSSocket.shuffleEndpoints entries env.rand, env.attempt x ≠ none) ∧
        connectRun env = (Except.error msg,
          [Step.resolve, Step.shuffle,
           Step.tryConnect (TLSSocket.shuffleEndpoints entries env.rand)])) ∧
      (∀ e,
        asyncConnect env.attempt (TLSSocket.shuffleEndpoints entries env.rand)
            = Except.ok e →
        (∃ pre post,
          TLSSocket.shuffleEndpoints entries env.rand = pre ++ e :: post ∧
          (∀ x ∈ pre, env.attempt x ≠ none) ∧ env.attempt e = none) ∧
        connectRun env = (env.handshakeResult,
          [Step.resolve, Step.shuffle,
           Step.tryConnect (TLSSocket.shuffleEndpoints entries env.rand),
           Step.handshake]))) :=
  ⟨fun msg h => connectRun_resolve_error env msg h,
   fun entries h1 =>
    ⟨fun msg h2 => ⟨asyncConnect_error_all env.attempt _ msg h2,
       connectRun_connect_error env entries msg h1 h2⟩,
     fun e h2 => ⟨asyncConnect_ok_first env.attempt _ e h2,
       connectRun_connect_ok env entries e h1 h2⟩⟩⟩

/-- Witness for C4: in the all-success environment the body performs all four
steps in order and completes. -/
theorem connect_sequence_witness :
    connectRun envAllOk = (Except.ok (),
      [Step.resolve, Step.shuffle, Step.tryConnect [ep2, ep1], Step.handshake]) :=
  (((connect_sequence envAllOk).2 [ep1, ep2] rfl).2 ep2 rfl).2

/-- Claim C6: when resolution completes with an empty candidate list, the
connection-attempt step fails (with `boost::asio::error::not_found`,
"Element not found"), the handshake is never reached, and the error callback —
not the success callback — fires for that `connectAsync` call. -/
theorem connect_empty_resolution_fails (env : ConnectEnv) (succ : Outcome)
    (h : env.resolveResult = Except.ok []) :
    (connectRun env).1 = Except.error "Element not found" ∧
    (connectRun env).2 = [Step.resolve, Step.shuffle, Step.tryConnect []] ∧
    connectAsyncCallbacks env succ = ([Call.error "Element not found"], none) := by
  have h2 : asyncConnect env.attempt (TLSSocket.shuffleEndpoints [] env.rand)
      = Except.error "Element not found" := rfl
  have hc := connectRun_connect_error env [] "Element not found" h h2
  refine ⟨by rw [hc], by rw [hc]; rfl, ?_⟩
  unfold connectAsyncCallbacks
  rw [hc]
  rfl

/-- Witness for C6 at the concrete environment resolving to zero endpoints. -/
theorem connect_empty_resolution_fails_witness :
    (connectRun envEmptyResolve).1 = Except.error "Element not found" ∧
    (connectRun envEmptyResolve).2 = [Step.resolve, Step.shuffle, Step.tryConnect []] ∧
    connectAsyncCallbacks envEmptyResolve Outcome.ok
      = ([Call.error "Element not found"], none) :=
  connect_empty_resolution_fails envEmptyResolve Outcome.ok rfl

/-- Claim C5: a `send` body issues exactly one write call, carrying the entire
buffer; its outcome is exactly the outcome of that single write; and two
sequential `sendAsync` invocations issue one write each, uncoalesced and
unchunked. -/
theorem send_single_write (env : SendEnv) (b b2 : List Nat) :
    (sendRun env b).2 = [Step.write b] ∧
    (sendRun env b).1 = (env.writeResult b).map (fun _ => ()) ∧
    (sendRun env b).2 ++ (sendRun env b2).2 = [Step.write b, Step.write b2] := by
  have hb : (sendRun env b).2 = [Step.write b] := by
    cases h : env.writeResult b <;> simp [sendRun, TLSSocket.send, stepBind, suspend, h]
  have hb2 : (sendRun env b2).2 = [Step.write b2] := by
    cases h : env.writeResult b2 <;> simp [sendRun, TLSSocket.send, stepBind, suspend, h]
  refine ⟨hb, ?_, by rw [hb, hb2]; rfl⟩
  cases h : env.writeResult b <;>
    simp [sendRun, TLSSocket.send, stepBind, suspend, h, Except.map]

/-- Claim C7: `close` raises no fault, and a second `close` on the
already-closed socket raises no fault either and leaves the state unchanged
(it is a no-op). -/
theorem close_idempotent (s : TLSSocket) :
    (TLSSocket.close s).2 = none ∧
    (TLSSocket.close (TLSSocket.close s).1).2 = none ∧
    TLSSocket.close (TLSSocket.close s).1 = ((TLSSocket.close s).1, none) :=
  ⟨rfl, rfl, rfl⟩

/-- Claim C8: `close` modifies only the raw transport channel: the TLS
context, the serialization domain, the resolver and the TLS layer state are
unchanged, and the raw channel ends up closed. -/
theorem close_frame (s : TLSSocket) :
    (TLSSocket.close s).1.m_context = s.m_context ∧
    (TLSSocket.close s).1.m_strand = s.m_strand ∧
    (TLSSocket.close s).1.m_resolver = s.m_resolver ∧
    (TLSSocket.close s).1.m_socket.tlsLayerState = s.m_socket.tlsLayerState ∧
    (TLSSocket.close s).1.m_socket.lowestLayer.isOpen = false :=
  ⟨rfl, rfl, rfl, rfl, rfl⟩
